import Mathlib

/-!
Verification of the force-read-mode plugin (src/main.ts, latest variant).

The plugin inspects every open markdown leaf on each layout change and,
depending on the configured folder and file path lists, forces the leaf
view into preview mode, optionally restores source mode, or leaves it
untouched.  Below we give a shallow embedding of the settings store, the
per-leaf reconciliation body, the layout-change handler, the settings
panel path-list parsing, the settings loader and the toggle command, and
prove the specified properties about them.
-/

/-- Embedding of a JavaScript primitive value, used for the host-owned
data stored inside a view-state object. -/
inductive JSVal where
  | str : String → JSVal
  | num : Int → JSVal
  | jsbool : Bool → JSVal
deriving DecidableEq, Repr

/-- Embedding of the object returned by leaf.getViewState(): a record of
top-level fields (type, active, pinned, group, ...) together with the
nested state record, which holds the mode field and any other host-owned
data.  Both records are modelled as association lists from field name to
value. -/
structure ViewState where
  top : List (String × JSVal)
  state : List (String × JSVal)
deriving DecidableEq, Repr

/-- Embedding of a workspace leaf as the reconciler sees it: whether
leaf.view is an instance of MarkdownView, the path of leaf.view.file
(none when no file is present), and the current view state. -/
structure Leaf where
  isMarkdownView : Bool
  file : Option String
  viewState : ViewState
deriving DecidableEq, Repr

/-- Embedding of the ForceReadModePluginSettings interface of main.ts. -/
structure ForceReadModePluginSettings where
  targetFolderPaths : List String
  targetFilePaths : List String
  restoreSourceMode : Bool
deriving DecidableEq, Repr

/-- Embedding of the DEFAULT_SETTINGS constant of main.ts. -/
def DEFAULT_SETTINGS : ForceReadModePluginSettings :=
  { targetFolderPaths := []
  , targetFilePaths := []
  , restoreSourceMode := false }

/-- Embedding of JavaScript String.prototype.startsWith, the bare prefix
test used by the folder check in onLayoutChange: true iff pre is a
prefix of the character sequence of s. -/
def startsWith (s pre : String) : Bool :=
  pre.data.isPrefixOf s.data

/-- The state record written by the preview branch of onLayoutChange:
the object literal with mode set to preview and nothing else. -/
def previewState : List (String × JSVal) := [("mode", JSVal.str "preview")]

/-- The state record written by the restore branch of onLayoutChange:
the object literal with mode set to source and nothing else. -/
def sourceState : List (String × JSVal) := [("mode", JSVal.str "source")]

/-- Embedding of the body of the leaves.forEach callback in
onLayoutChange of main.ts.  Returns the leaf after the iteration
together with the setViewState call payload issued for it, if any.  The
payload spreads the previous view state at the top level and replaces
the nested state field with the fresh mode-only record, exactly as the
source spread expression does. -/
def applyLeaf (settings : ForceReadModePluginSettings) (leaf : Leaf) :
    Leaf × Option ViewState :=
  if !leaf.isMarkdownView then
    (leaf, none)
  else
    match leaf.file with
    | none => (leaf, none)
    | some path =>
      let isExactMatch := settings.targetFilePaths.contains path
      let isInTargetFolder :=
        settings.targetFolderPaths.any (fun p => startsWith path p)
      if isExactMatch || isInTargetFolder then
        let newState : ViewState := { leaf.viewState with state := previewState }
        ({ leaf with viewState := newState }, some newState)
      else if settings.restoreSourceMode then
        let newState : ViewState := { leaf.viewState with state := sourceState }
        ({ leaf with viewState := newState }, some newState)
      else
        (leaf, none)

/-- Embedding of onLayoutChange of main.ts: when the plugin is disabled
it returns before touching any leaf; otherwise every markdown leaf is
processed by the forEach body.  The result pairs each leaf with the
setViewState call issued for it, if any. -/
def onLayoutChange (isEnabled : Bool) (settings : ForceReadModePluginSettings)
    (leaves : List Leaf) : List (Leaf × Option ViewState) :=
  if !isEnabled then
    leaves.map (fun l => (l, none))
  else
    leaves.map (applyLeaf settings)

/-- The mode field of the state record currently held by a leaf. -/
def modeOf (l : Leaf) : Option JSVal :=
  l.viewState.state.lookup "mode"

/-- Embedding of JavaScript value.split over the one-character newline
separator, at the level of the character sequence: the groups of
characters between consecutive newline characters, in order.  Splitting
the empty text yields one empty group, as in JavaScript. -/
def splitOnNewline : List Char → List (List Char)
  | [] => [[]]
  | a :: rest =>
    match splitOnNewline rest with
    | [] => [[]]
    | grp :: grps =>
      if a = '\n' then [] :: grp :: grps else (a :: grp) :: grps

/-- Embedding of JavaScript String.prototype.trim at the level of the
character sequence: drop whitespace characters from both ends. -/
def trimChars (l : List Char) : List Char :=
  ((l.dropWhile Char.isWhitespace).reverse.dropWhile Char.isWhitespace).reverse

/-- Embedding of the onChange handler of the settings-panel text areas
in main.ts: split the raw text on newlines, trim each line, keep the
non-empty lines, in input order. -/
def parsePathList (value : String) : List String :=
  (((splitOnNewline value.data).map (fun l => String.mk (trimChars l))).filter
    (fun p => p.length > 0))

/-- Embedding of the loosely typed object returned by loadData(): each
settings key may be absent. -/
structure PersistedData where
  targetFolderPaths : Option (List String)
  targetFilePaths : Option (List String)
  restoreSourceMode : Option Bool
deriving DecidableEq, Repr

/-- Embedding of loadSettings of main.ts, which computes
Object.assign of an empty object, DEFAULT_SETTINGS and the persisted
data: keys present in the persisted data override the defaults, missing
keys take the defaults. -/
def loadSettings (d : PersistedData) : ForceReadModePluginSettings :=
  { targetFolderPaths := d.targetFolderPaths.getD DEFAULT_SETTINGS.targetFolderPaths
  , targetFilePaths := d.targetFilePaths.getD DEFAULT_SETTINGS.targetFilePaths
  , restoreSourceMode := d.restoreSourceMode.getD DEFAULT_SETTINGS.restoreSourceMode }

/-- Embedding of the field initializer isEnabled = true of the plugin
class: the enable flag starts out true on every activation. -/
def initialIsEnabled : Bool := true

/-- The command label computed by toggleCommand of main.ts from the
current enable flag. -/
def commandLabel (isEnabled : Bool) : String :=
  if isEnabled then "Disable" else "Enable"

/-- The transient notice text emitted by the toggle callback from the
new enable flag. -/
def noticeMessage (isEnabled : Bool) : String :=
  if isEnabled then "Force Read Mode Enabled" else "Force Read Mode Disabled"

/-- The in-memory plugin state the toggle command touches: the enable
flag and the display label under which the command is registered. -/
structure PluginState where
  isEnabled : Bool
  registeredLabel : String
deriving DecidableEq, Repr

/-- Embedding of the callback of toggleCommand of main.ts: flip the
enable flag, emit a notice with the new state, and re-register the
command with the label derived from the new flag.  Returns the new
plugin state and the notice text. -/
def toggleCallback (st : PluginState) : PluginState × String :=
  let newEnabled := !st.isEnabled
  ({ isEnabled := newEnabled, registeredLabel := commandLabel newEnabled },
   noticeMessage newEnabled)

/-- Formalisation of the spec sentence on the state-replace call: every
setViewState payload carries the previous top-level fields and every
datum of the previous nested state record other than the mode field.
This is the claimed property, to be compared with applyLeaf. -/
def statePreservingClaim (s : ForceReadModePluginSettings) : Prop :=
  ∀ (leaf : Leaf) (call : ViewState), (applyLeaf s leaf).2 = some call →
    call.top = leaf.viewState.top ∧
    ∀ (k : String) (v : JSVal), (k, v) ∈ leaf.viewState.state → k ≠ "mode" →
      (k, v) ∈ call.state

/-- Concrete settings used in witnesses: one folder path, no file
paths, restore disabled. -/
def exSettings1 : ForceReadModePluginSettings :=
  { targetFolderPaths := ["notes"], targetFilePaths := [], restoreSourceMode := false }

/-- Concrete settings with restore enabled. -/
def exSettingsRestore : ForceReadModePluginSettings :=
  { targetFolderPaths := ["notes"], targetFilePaths := [], restoreSourceMode := true }

/-- Concrete settings with an exact file path and a non-matching folder
list. -/
def exSettingsFile : ForceReadModePluginSettings :=
  { targetFolderPaths := ["zzz"], targetFilePaths := ["some/file.md"],
    restoreSourceMode := false }

/-- Concrete settings whose folder list contains the empty string. -/
def exSettingsEmpty : ForceReadModePluginSettings :=
  { targetFolderPaths := [""], targetFilePaths := [], restoreSourceMode := false }

/-- Concrete markdown leaf inside the notes folder whose nested state
record holds a scroll datum besides the mode field. -/
def exLeaf1 : Leaf :=
  { isMarkdownView := true
  , file := some "notes/x.md"
  , viewState := { top := [("pinned", JSVal.jsbool false)]
                 , state := [("mode", JSVal.str "source"), ("scroll", JSVal.num 5)] } }

/-- The setViewState payload issued for exLeaf1 under exSettings1. -/
def exCall1 : ViewState := { top := [("pinned", JSVal.jsbool false)], state := previewState }

/-- Concrete markdown leaf outside every configured folder. -/
def exLeaf2 : Leaf :=
  { isMarkdownView := true
  , file := some "other/y.md"
  , viewState := { top := [], state := [("mode", JSVal.str "source")] } }

/-- Concrete markdown leaf whose path is listed as an exact file path
in exSettingsFile. -/
def exLeaf3 : Leaf :=
  { isMarkdownView := true
  , file := some "some/file.md"
  , viewState := { top := [], state := [("mode", JSVal.str "source")] } }

/-- Concrete persisted data with some keys present and some missing. -/
def persisted1 : PersistedData :=
  { targetFolderPaths := some ["a"], targetFilePaths := none,
    restoreSourceMode := some true }

/-- A leaf that is not a markdown view is skipped unchanged. -/
theorem applyLeaf_not_markdown (s : ForceReadModePluginSettings) (f : Option String)
    (vs : ViewState) : applyLeaf s ⟨false, f, vs⟩ = (⟨false, f, vs⟩, none) := rfl

/-- A markdown leaf without a file is skipped unchanged. -/
theorem applyLeaf_no_file (s : ForceReadModePluginSettings) (vs : ViewState) :
    applyLeaf s ⟨true, none, vs⟩ = (⟨true, none, vs⟩, none) := rfl

/-- Unfolding equation for applyLeaf on a markdown leaf with a file. -/
theorem applyLeaf_eq (s : ForceReadModePluginSettings) (path : String) (vs : ViewState) :
    applyLeaf s ⟨true, some path, vs⟩ =
      if (s.targetFilePaths.contains path ||
          s.targetFolderPaths.any fun p => startsWith path p) then
        (⟨true, some path, ⟨vs.top, previewState⟩⟩, some ⟨vs.top, previewState⟩)
      else if s.restoreSourceMode then
        (⟨true, some path, ⟨vs.top, sourceState⟩⟩, some ⟨vs.top, sourceState⟩)
      else
        (⟨true, some path, vs⟩, none) := rfl

/-- When the exact-match or folder-match condition holds, applyLeaf
issues the preview payload. -/
theorem applyLeaf_preview_of_cond (s : ForceReadModePluginSettings) (path : String)
    (vs : ViewState)
    (h : (s.targetFilePaths.contains path ||
        s.targetFolderPaths.any fun p => startsWith path p) = true) :
    applyLeaf s ⟨true, some path, vs⟩ =
      (⟨true, some path, ⟨vs.top, previewState⟩⟩, some ⟨vs.top, previewState⟩) := by
  rw [applyLeaf_eq, if_pos h]

/-- When no condition matches and restoreSourceMode is on, applyLeaf
issues the source payload. -/
theorem applyLeaf_source_of_cond (s : ForceReadModePluginSettings) (path : String)
    (vs : ViewState)
    (h : (s.targetFilePaths.contains path ||
        s.targetFolderPaths.any fun p => startsWith path p) = false)
    (hr : s.restoreSourceMode = true) :
    applyLeaf s ⟨true, some path, vs⟩ =
      (⟨true, some path, ⟨vs.top, sourceState⟩⟩, some ⟨vs.top, sourceState⟩) := by
  rw [applyLeaf_eq, if_neg (by rw [h]; exact Bool.false_ne_true), if_pos hr]

/-- When no condition matches and restoreSourceMode is off, applyLeaf
leaves the leaf untouched and issues no call. -/
theorem applyLeaf_skip_of_cond (s : ForceReadModePluginSettings) (path : String)
    (vs : ViewState)
    (h : (s.targetFilePaths.contains path ||
        s.targetFolderPaths.any fun p => startsWith path p) = false)
    (hr : s.restoreSourceMode = false) :
    applyLeaf s ⟨true, some path, vs⟩ = (⟨true, some path, vs⟩, none) := by
  rw [applyLeaf_eq, if_neg (by rw [h]; exact Bool.false_ne_true),
    if_neg (by rw [hr]; exact Bool.false_ne_true)]

/-- The forEach body is a per-leaf fixpoint: applying it to its own
output repeats the same outcome. -/
theorem applyLeaf_idem (s : ForceReadModePluginSettings) (leaf : Leaf) :
    applyLeaf s (applyLeaf s leaf).1 = applyLeaf s leaf := by
  obtain ⟨m, f, vs⟩ := leaf
  cases m with
  | false => rfl
  | true =>
    cases f with
    | none => rfl
    | some path =>
      by_cases h1 : (s.targetFilePaths.contains path ||
          s.targetFolderPaths.any fun p => startsWith path p) = true
      · rw [applyLeaf_preview_of_cond s path vs h1]
        rw [applyLeaf_preview_of_cond s path ⟨vs.top, previewState⟩ h1]
      · rw [Bool.not_eq_true] at h1
        by_cases h2 : s.restoreSourceMode = true
        · rw [applyLeaf_source_of_cond s path vs h1 h2]
          rw [applyLeaf_source_of_cond s path ⟨vs.top, sourceState⟩ h1 h2]
        · rw [Bool.not_eq_true] at h2
          rw [applyLeaf_skip_of_cond s path vs h1 h2]
          rw [applyLeaf_skip_of_cond s path vs h1 h2]

/-- Unfolding equation for the disabled handler. -/
theorem onLayoutChange_disabled (s : ForceReadModePluginSettings) (leaves : List Leaf) :
    onLayoutChange false s leaves = leaves.map (fun l => (l, none)) := rfl

/-- Unfolding equation for the enabled handler. -/
theorem onLayoutChange_enabled (s : ForceReadModePluginSettings) (leaves : List Leaf) :
    onLayoutChange true s leaves = leaves.map (applyLeaf s) := rfl

/-- Claim C1, counterexample: the state-set call does not preserve every
datum of the existing state snapshot.  For the concrete leaf exLeaf1,
whose nested state record holds a scroll datum, the payload issued under
exSettings1 drops that datum, so the claimed preservation property fails
for exSettings1. -/
theorem C1_counterexample_scroll_discarded : ¬ statePreservingClaim exSettings1 := by
  intro h
  have h2 := (h exLeaf1 exCall1 rfl).2 "scroll" (JSVal.num 5) (by decide) (by decide)
  exact absurd h2 (by decide)

/-- Claim C1, amended: every state-set call issued by the reconciler
shallow-merges at the top level only.  The payload keeps all top-level
fields of the previous view state, but its nested state record is
replaced wholesale by the mode-only record (preview or source), so any
other datum of the previous nested state record is discarded. -/
theorem C1_amended_top_merged_state_replaced
    (s : ForceReadModePluginSettings) (leaf : Leaf) (call : ViewState)
    (h : (applyLeaf s leaf).2 = some call) :
    call.top = leaf.viewState.top ∧
    (call.state = previewState ∨ call.state = sourceState) := by
  obtain ⟨m, f, vs⟩ := leaf
  cases m with
  | false =>
    rw [applyLeaf_not_markdown] at h
    exact absurd h (by simp)
  | true =>
    cases f with
    | none =>
      rw [applyLeaf_no_file] at h
      exact absurd h (by simp)
    | some path =>
      by_cases h1 : (s.targetFilePaths.contains path ||
          s.targetFolderPaths.any fun p => startsWith path p) = true
      · rw [applyLeaf_preview_of_cond s path vs h1] at h
        obtain rfl : (⟨vs.top, previewState⟩ : ViewState) = call := Option.some.inj h
        exact ⟨rfl, Or.inl rfl⟩
      · rw [Bool.not_eq_true] at h1
        by_cases h2 : s.restoreSourceMode = true
        · rw [applyLeaf_source_of_cond s path vs h1 h2] at h
          obtain rfl : (⟨vs.top, sourceState⟩ : ViewState) = call := Option.some.inj h
          exact ⟨rfl, Or.inr rfl⟩
        · rw [Bool.not_eq_true] at h2
          rw [applyLeaf_skip_of_cond s path vs h1 h2] at h
          exact absurd h (by simp)

/-- Claim C1, witness: the amended statement applied to the concrete
call issued for exLeaf1 under exSettings1. -/
theorem C1_amended_witness : exCall1.top = exLeaf1.viewState.top ∧
    (exCall1.state = previewState ∨ exCall1.state = sourceState) :=
  C1_amended_top_merged_state_replaced exSettings1 exLeaf1 exCall1 rfl

/-- Claim C2: folder matching is a bare string comparison on the leading
characters.  Whenever some configured folder path is a character-level
starting segment of the file path of an open markdown leaf, the
reconciler forces that leaf into preview mode; in particular, with the
configured list containing the entry notes, both notes/x.md and the
sibling notes-archive/x.md match. -/
theorem C2_bare_string_test_forces_preview :
    (∀ (s : ForceReadModePluginSettings) (leaf : Leaf) (p path : String),
      leaf.isMarkdownView = true → leaf.file = some path →
      p ∈ s.targetFolderPaths → startsWith path p = true →
      modeOf (applyLeaf s leaf).1 = some (JSVal.str "preview") ∧
      (applyLeaf s leaf).2 = some ⟨leaf.viewState.top, previewState⟩) ∧
    startsWith "notes/x.md" "notes" = true ∧
    startsWith "notes-archive/x.md" "notes" = true := by
  refine ⟨?_, by decide, by decide⟩
  intro s leaf p path hm hf hp hpre
  obtain ⟨m, f, vs⟩ := leaf
  dsimp only at hm hf
  subst hm; subst hf
  have hany : (s.targetFolderPaths.any fun q => startsWith path q) = true :=
    List.any_eq_true.mpr ⟨p, hp, hpre⟩
  have hc : (s.targetFilePaths.contains path ||
      s.targetFolderPaths.any fun q => startsWith path q) = true := by
    rw [hany, Bool.or_true]
  rw [applyLeaf_preview_of_cond s path vs hc]
  exact ⟨rfl, rfl⟩

/-- Claim C2, witness: the concrete leaf exLeaf1 under exSettings1 is
forced into preview mode. -/
theorem C2_witness :
    modeOf (applyLeaf exSettings1 exLeaf1).1 = some (JSVal.str "preview") ∧
    (applyLeaf exSettings1 exLeaf1).2 = some ⟨exLeaf1.viewState.top, previewState⟩ :=
  C2_bare_string_test_forces_preview.1 exSettings1 exLeaf1 "notes" "notes/x.md"
    rfl rfl (by decide) (by decide)

/-- Claim C3: for an open markdown leaf matching no configured folder
path and no configured exact file path, the reconciler issues no
state-set call and leaves the leaf unchanged when restoreSourceMode is
false, and forces the leaf into editable source mode when
restoreSourceMode is true. -/
theorem C3_nonmatching_restore_or_skip :
    ∀ (s : ForceReadModePluginSettings) (leaf : Leaf) (path : String),
      leaf.isMarkdownView = true → leaf.file = some path →
      path ∉ s.targetFilePaths →
      (∀ p ∈ s.targetFolderPaths, startsWith path p = false) →
      ((s.restoreSourceMode = false → applyLeaf s leaf = (leaf, none)) ∧
       (s.restoreSourceMode = true →
         modeOf (applyLeaf s leaf).1 = some (JSVal.str "source") ∧
         (applyLeaf s leaf).2 = some ⟨leaf.viewState.top, sourceState⟩)) := by
  intro s leaf path hm hf hnf hnp
  obtain ⟨m, f, vs⟩ := leaf
  dsimp only at hm hf
  subst hm; subst hf
  have hcf : s.targetFilePaths.contains path = false := by
    cases hb : s.targetFilePaths.contains path with
    | false => rfl
    | true => exact absurd (List.mem_of_elem_eq_true hb) hnf
  have hca : (s.targetFolderPaths.any fun q => startsWith path q) = false := by
    apply List.any_eq_false.mpr
    intro x hx
    rw [hnp x hx]
    exact Bool.false_ne_true
  have hc : (s.targetFilePaths.contains path ||
      s.targetFolderPaths.any fun q => startsWith path q) = false := by
    rw [hcf, hca, Bool.or_false]
  constructor
  · intro hr
    rw [applyLeaf_skip_of_cond s path vs hc hr]
  · intro hr
    rw [applyLeaf_source_of_cond s path vs hc hr]
    exact ⟨rfl, rfl⟩

/-- Claim C3, witness: the non-matching leaf exLeaf2 is left untouched
under exSettings1 and forced into source mode under exSettingsRestore. -/
theorem C3_witness :
    (applyLeaf exSettings1 exLeaf2 = (exLeaf2, none)) ∧
    (modeOf (applyLeaf exSettingsRestore exLeaf2).1 = some (JSVal.str "source") ∧
     (applyLeaf exSettingsRestore exLeaf2).2 = some ⟨exLeaf2.viewState.top, sourceState⟩) :=
  ⟨(C3_nonmatching_restore_or_skip exSettings1 exLeaf2 "other/y.md"
      rfl rfl (by decide) (by decide)).1 rfl,
   (C3_nonmatching_restore_or_skip exSettingsRestore exLeaf2 "other/y.md"
      rfl rfl (by decide) (by decide)).2 rfl⟩

/-- Claim C4: an open markdown leaf whose file path is exactly an
element of targetFilePaths is forced into preview mode, with no
hypothesis on the folder list, so the folder test is irrelevant. -/
theorem C4_exact_file_match_forces_preview :
    ∀ (s : ForceReadModePluginSettings) (leaf : Leaf) (path : String),
      leaf.isMarkdownView = true → leaf.file = some path →
      path ∈ s.targetFilePaths →
      modeOf (applyLeaf s leaf).1 = some (JSVal.str "preview") ∧
      (applyLeaf s leaf).2 = some ⟨leaf.viewState.top, previewState⟩ := by
  intro s leaf path hm hf hmem
  obtain ⟨m, f, vs⟩ := leaf
  dsimp only at hm hf
  subst hm; subst hf
  have hct : s.targetFilePaths.contains path = true :=
    List.elem_eq_true_of_mem hmem
  have hc : (s.targetFilePaths.contains path ||
      s.targetFolderPaths.any fun q => startsWith path q) = true := by
    rw [hct, Bool.true_or]
  rw [applyLeaf_preview_of_cond s path vs hc]
  exact ⟨rfl, rfl⟩

/-- Claim C4, witness: the leaf exLeaf3, listed as an exact file path in
exSettingsFile while matching none of its folder paths, is forced into
preview mode. -/
theorem C4_witness :
    modeOf (applyLeaf exSettingsFile exLeaf3).1 = some (JSVal.str "preview") ∧
    (applyLeaf exSettingsFile exLeaf3).2 = some ⟨exLeaf3.viewState.top, previewState⟩ :=
  C4_exact_file_match_forces_preview exSettingsFile exLeaf3 "some/file.md"
    rfl rfl (by decide)

/-- Claim C5: the reconciliation pass is idempotent and never
short-circuits.  Running the handler on the leaves produced by a first
run yields exactly the same outcome as the first run: the same final
leaves and the same state-set calls, issued again. -/
theorem C5_reconciliation_idempotent (e : Bool) (s : ForceReadModePluginSettings)
    (leaves : List Leaf) :
    onLayoutChange e s ((onLayoutChange e s leaves).map Prod.fst) =
      onLayoutChange e s leaves := by
  cases e with
  | false =>
    rw [onLayoutChange_disabled, onLayoutChange_disabled, List.map_map, List.map_map]
    exact List.map_congr_left fun a _ => rfl
  | true =>
    rw [onLayoutChange_enabled, onLayoutChange_enabled, List.map_map, List.map_map]
    exact List.map_congr_left fun a _ => applyLeaf_idem s a

/-- Claim C6: invoking the toggle callback twice restores the enable
flag, after which the reconciler affects leaves exactly as before; a
single invocation flips the flag and re-registers the command under the
label Disable when the new flag is enabled and Enable when disabled. -/
theorem C6_toggle_involution (st : PluginState) (s : ForceReadModePluginSettings)
    (leaves : List Leaf) :
    (toggleCallback (toggleCallback st).1).1.isEnabled = st.isEnabled ∧
    onLayoutChange (toggleCallback (toggleCallback st).1).1.isEnabled s leaves =
      onLayoutChange st.isEnabled s leaves ∧
    (toggleCallback st).1.isEnabled = !st.isEnabled ∧
    (toggleCallback st).1.registeredLabel =
      (if (toggleCallback st).1.isEnabled then "Disable" else "Enable") :=
  ⟨Bool.not_not st.isEnabled,
   congrArg (fun b => onLayoutChange b s leaves) (Bool.not_not st.isEnabled),
   rfl, rfl⟩

/-- Claim C7: with the enable flag false the handler returns before the
loop, so every leaf is left unchanged and no state-set call occurs. -/
theorem C7_disabled_no_calls (s : ForceReadModePluginSettings) (leaves : List Leaf) :
    onLayoutChange false s leaves = leaves.map (fun l => (l, none)) := rfl

/-- Claim C8: the settings-panel list parsing splits on newlines, trims
each line and drops the empty lines while preserving order; in
particular the documented concrete input yields the two-element list,
and in general the stored list is an order-preserving selection of the
trimmed lines in which every kept entry is non-empty. -/
theorem C8_path_list_parsing : parsePathList "a/b\n\na/c\n  \n" = ["a/b", "a/c"] ∧
    (∀ value : String,
      (parsePathList value).Sublist
        ((splitOnNewline value.data).map fun l => String.mk (trimChars l)) ∧
      ∀ p ∈ parsePathList value, 0 < p.length) := by
  refine ⟨by decide, fun value => ⟨List.filter_sublist _, fun p hp => ?_⟩⟩
  have h := (List.mem_filter.mp hp).2
  exact of_decide_eq_true h

/-- Claim C8, witness: the general part applied to the documented input
and its first stored entry. -/
theorem C8_witness : ("a/b" ∈ parsePathList "a/b\n\na/c\n  \n") ∧ 0 < "a/b".length :=
  ⟨by decide, (C8_path_list_parsing.2 "a/b\n\na/c\n  \n").2 "a/b" (by decide)⟩

/-- Claim C9: loading settings merges persisted data over the defaults.
With nothing persisted the result is exactly DEFAULT_SETTINGS and the
enable flag starts true; every key present in the persisted data
overrides the corresponding default verbatim and every missing key takes
its default. -/
theorem C9_load_merges_defaults : loadSettings ⟨none, none, none⟩ = DEFAULT_SETTINGS ∧
    initialIsEnabled = true ∧
    ∀ (d : PersistedData) (fps fls : List String) (b : Bool),
      ((d.targetFolderPaths = some fps → (loadSettings d).targetFolderPaths = fps) ∧
       (d.targetFolderPaths = none → (loadSettings d).targetFolderPaths = []) ∧
       (d.targetFilePaths = some fls → (loadSettings d).targetFilePaths = fls) ∧
       (d.targetFilePaths = none → (loadSettings d).targetFilePaths = []) ∧
       (d.restoreSourceMode = some b → (loadSettings d).restoreSourceMode = b) ∧
       (d.restoreSourceMode = none → (loadSettings d).restoreSourceMode = false)) := by
  refine ⟨rfl, rfl, fun d fps fls b => ⟨?_, ?_, ?_, ?_, ?_, ?_⟩⟩ <;>
    intro h <;> simp [loadSettings, h, DEFAULT_SETTINGS]

/-- Claim C9, witness: loading the concrete persisted data persisted1
keeps its present keys verbatim and defaults the missing key. -/
theorem C9_witness : (loadSettings persisted1).targetFolderPaths = ["a"] ∧
    (loadSettings persisted1).targetFilePaths = [] ∧
    (loadSettings persisted1).restoreSourceMode = true :=
  ⟨(C9_load_merges_defaults.2.2 persisted1 ["a"] [] true).1 rfl,
   (C9_load_merges_defaults.2.2 persisted1 ["a"] [] true).2.2.2.1 rfl,
   (C9_load_merges_defaults.2.2 persisted1 ["a"] [] true).2.2.2.2.1 rfl⟩

/-- Claim C10: when the folder list contains the empty string, every
open markdown leaf with a file matches the folder test, because the
empty string is a starting segment of every path, so every such leaf is
forced into preview mode. -/
theorem C10_empty_string_matches_everything :
    ∀ (s : ForceReadModePluginSettings) (leaf : Leaf) (path : String),
      "" ∈ s.targetFolderPaths → leaf.isMarkdownView = true → leaf.file = some path →
      modeOf (applyLeaf s leaf).1 = some (JSVal.str "preview") ∧
      (applyLeaf s leaf).2 = some ⟨leaf.viewState.top, previewState⟩ := by
  intro s leaf path hmem hm hf
  obtain ⟨m, f, vs⟩ := leaf
  dsimp only at hm hf
  subst hm; subst hf
  have hsw : startsWith path "" = true := by
    unfold startsWith
    rw [show "".data = [] from rfl]
    exact List.isPrefixOf_nil_left
  have hany : (s.targetFolderPaths.any fun q => startsWith path q) = true :=
    List.any_eq_true.mpr ⟨"", hmem, hsw⟩
  have hc : (s.targetFilePaths.contains path ||
      s.targetFolderPaths.any fun q => startsWith path q) = true := by
    rw [hany, Bool.or_true]
  rw [applyLeaf_preview_of_cond s path vs hc]
  exact ⟨rfl, rfl⟩

/-- Claim C10, witness: under exSettingsEmpty, whose folder list
contains the empty string, the otherwise non-matching leaf exLeaf2 is
forced into preview mode. -/
theorem C10_witness :
    modeOf (applyLeaf exSettingsEmpty exLeaf2).1 = some (JSVal.str "preview") ∧
    (applyLeaf exSettingsEmpty exLeaf2).2 = some ⟨exLeaf2.viewState.top, previewState⟩ :=
  C10_empty_string_matches_everything exSettingsEmpty exLeaf2 "other/y.md"
    (by decide) rfl rfl
